import Mathlib

/-!
Shallow embedding of `resnet_cifar_model.py` (ResNet56 for CIFAR, Keras).

The source is a pure graph-construction module: three functions
(`identity_building_block`, `conv_building_block`, `resnet56`) that build a
Keras layer graph.  We embed each layer application as a constructor of a
`Tensor` dataflow AST and, in parallel, record the list of layers created by
a call, in creation order, exactly as they appear textually in the source.
A Keras layer object's configuration is fixed at its construction and does
not depend on the tensor it is applied to, so each block's layer list is
computed by a tensor-independent `..._layers` function from the same
parameter records that the block's tensor chain uses.

The ambient Keras setting `backend.image_data_format()` becomes an explicit
`String` argument threaded through every function; `training=None` becomes
`Option Bool`; the Python `classes` argument (an `int`, default 100) becomes
`Int` so that non-positive class counts are expressible.  Keras normalizes
an integer `kernel_size` to a square tuple, so a block's `kernel_size : Nat`
appears as `(kernel_size, kernel_size)` in the convolution parameters; a
`Conv2D` call without a `padding` keyword gets the Keras default `"valid"`,
and one without `strides` gets `(1, 1)`.
-/

namespace ResnetCifar

/-- Source line 13: `BATCH_NORM_DECAY = 0.997`. -/
def BATCH_NORM_DECAY : ℚ := 997 / 1000

/-- Source line 14: `BATCH_NORM_EPSILON = 1e-5`. -/
def BATCH_NORM_EPSILON : ℚ := 1 / 100000

/-- Source line 15: `L2_WEIGHT_DECAY = 2e-4`. -/
def L2_WEIGHT_DECAY : ℚ := 2 / 10000

/-- The arguments of a `layers.Conv2D` call. -/
structure ConvParams where
  filters : Nat
  kernel : Nat × Nat
  strides : Nat × Nat
  padding : String
  kernel_initializer : String
  kernel_regularizer : ℚ
  bias_regularizer : ℚ
  name : String
deriving DecidableEq, Repr

/-- The arguments of a `layers.BatchNormalization` call. -/
structure BNParams where
  axis : Nat
  name : String
  momentum : ℚ
  epsilon : ℚ
deriving DecidableEq, Repr

/-- The arguments of the `layers.Dense` call. -/
structure DenseParams where
  units : Int
  activation : String
  kernel_initializer : String
  kernel_regularizer : ℚ
  bias_regularizer : ℚ
  name : String
deriving DecidableEq, Repr

/-- Symbolic tensor: the dataflow DAG of graph construction.  Each
constructor records one layer application and its parent tensor(s). -/
inductive Tensor where
  | input (shape : List Nat) : Tensor
  | zeroPad2d (padding : Nat × Nat) (name : String) (t : Tensor) : Tensor
  | conv2d (p : ConvParams) (t : Tensor) : Tensor
  | batchNorm (p : BNParams) (training : Option Bool) (t : Tensor) : Tensor
  | activation (kind : String) (t : Tensor) : Tensor
  | add (x y : Tensor) : Tensor
  | globalAvgPool2d (name : String) (t : Tensor) : Tensor
  | dense (p : DenseParams) (t : Tensor) : Tensor
deriving DecidableEq, Repr

/-- One created layer, as it would appear in the Keras model's layer list. -/
inductive Layer where
  | input (shape : List Nat) : Layer
  | zeroPad2d (padding : Nat × Nat) (name : String) : Layer
  | conv2d (p : ConvParams) : Layer
  | batchNorm (p : BNParams) : Layer
  | activation (kind : String) : Layer
  | add : Layer
  | globalAvgPool2d (name : String) : Layer
  | dense (p : DenseParams) : Layer
deriving DecidableEq, Repr

/-- The `models.Model(img_input, x, name='resnet56')` result: input tensor,
output tensor, the created layers in creation order, and the model name. -/
structure Model where
  input : Tensor
  output : Tensor
  layers : List Layer
  name : String
deriving DecidableEq, Repr

/-- The layer parameters of one `identity_building_block` call. -/
structure IdentityBlockParams where
  conv2a : ConvParams
  bn2a : BNParams
  conv2b : ConvParams
  bn2b : BNParams
deriving DecidableEq, Repr

/-- Source lines 39-68: the parameters of the four named layers an
`identity_building_block` call creates (two same-padding stride-1
convolutions and two batch normalizations, named from the stage and block
labels; `bn_axis` is 3 when the data format is `channels_last`, else 1). -/
def identityBlockParams (kernel_size : Nat) (filters : Nat × Nat)
    (stage : Nat) (block : String) (image_data_format : String) :
    IdentityBlockParams :=
  let filters1 := filters.1
  let filters2 := filters.2
  let bn_axis : Nat := if image_data_format == "channels_last" then 3 else 1
  let conv_name_base := "res" ++ toString stage ++ block ++ "_branch"
  let bn_name_base := "bn" ++ toString stage ++ block ++ "_branch"
  { conv2a :=
      { filters := filters1, kernel := (kernel_size, kernel_size),
        strides := (1, 1), padding := "same",
        kernel_initializer := "he_normal",
        kernel_regularizer := L2_WEIGHT_DECAY,
        bias_regularizer := L2_WEIGHT_DECAY, name := conv_name_base ++ "2a" },
    bn2a :=
      { axis := bn_axis, name := bn_name_base ++ "2a",
        momentum := BATCH_NORM_DECAY, epsilon := BATCH_NORM_EPSILON },
    conv2b :=
      { filters := filters2, kernel := (kernel_size, kernel_size),
        strides := (1, 1), padding := "same",
        kernel_initializer := "he_normal",
        kernel_regularizer := L2_WEIGHT_DECAY,
        bias_regularizer := L2_WEIGHT_DECAY, name := conv_name_base ++ "2b" },
    bn2b :=
      { axis := bn_axis, name := bn_name_base ++ "2b",
        momentum := BATCH_NORM_DECAY, epsilon := BATCH_NORM_EPSILON } }

/-- The layers an `identity_building_block` call creates, in creation
order (source lines 47-72). -/
def identity_building_block_layers (kernel_size : Nat)
    (filters : Nat × Nat) (stage : Nat) (block : String)
    (image_data_format : String) : List Layer :=
  let p := identityBlockParams kernel_size filters stage block
    image_data_format
  [Layer.conv2d p.conv2a, Layer.batchNorm p.bn2a, Layer.activation "relu",
   Layer.conv2d p.conv2b, Layer.batchNorm p.bn2b, Layer.add,
   Layer.activation "relu"]

/-- Source lines 18-72, `identity_building_block`: two same-padding stride-1
convolutions with batch normalization after each and a ReLU between, an
element-wise add with the unmodified input tensor, a final ReLU.  Returns
the output tensor together with the layers created, in creation order. -/
def identity_building_block (input_tensor : Tensor) (kernel_size : Nat)
    (filters : Nat × Nat) (stage : Nat) (block : String)
    (training : Option Bool) (image_data_format : String) :
    Tensor × List Layer :=
  let p := identityBlockParams kernel_size filters stage block
    image_data_format
  let x1 := Tensor.conv2d p.conv2a input_tensor
  let x2 := Tensor.batchNorm p.bn2a training x1
  let x3 := Tensor.activation "relu" x2
  let x4 := Tensor.conv2d p.conv2b x3
  let x5 := Tensor.batchNorm p.bn2b training x4
  let x6 := Tensor.add x5 input_tensor
  let x7 := Tensor.activation "relu" x6
  (x7, identity_building_block_layers kernel_size filters stage block
    image_data_format)

/-- The layer parameters of one `conv_building_block` call. -/
structure ConvBlockParams where
  conv2a : ConvParams
  bn2a : BNParams
  conv2b : ConvParams
  bn2b : BNParams
  convShortcut : ConvParams
  bnShortcut : BNParams
deriving DecidableEq, Repr

/-- Source lines 102-141: the parameters of the six named layers a
`conv_building_block` call creates.  The first main-path convolution and the
1x1 shortcut convolution use the given `strides`; the shortcut convolution
has no `padding` keyword in the source, so it gets the Keras default
`"valid"`. -/
def convBlockParams (kernel_size : Nat) (filters : Nat × Nat) (stage : Nat)
    (block : String) (strides : Nat × Nat) (image_data_format : String) :
    ConvBlockParams :=
  let filters1 := filters.1
  let filters2 := filters.2
  let bn_axis : Nat := if image_data_format == "channels_last" then 3 else 1
  let conv_name_base := "res" ++ toString stage ++ block ++ "_branch"
  let bn_name_base := "bn" ++ toString stage ++ block ++ "_branch"
  { conv2a :=
      { filters := filters1, kernel := (kernel_size, kernel_size),
        strides := strides, padding := "same",
        kernel_initializer := "he_normal",
        kernel_regularizer := L2_WEIGHT_DECAY,
        bias_regularizer := L2_WEIGHT_DECAY, name := conv_name_base ++ "2a" },
    bn2a :=
      { axis := bn_axis, name := bn_name_base ++ "2a",
        momentum := BATCH_NORM_DECAY, epsilon := BATCH_NORM_EPSILON },
    conv2b :=
      { filters := filters2, kernel := (kernel_size, kernel_size),
        strides := (1, 1), padding := "same",
        kernel_initializer := "he_normal",
        kernel_regularizer := L2_WEIGHT_DECAY,
        bias_regularizer := L2_WEIGHT_DECAY, name := conv_name_base ++ "2b" },
    bn2b :=
      { axis := bn_axis, name := bn_name_base ++ "2b",
        momentum := BATCH_NORM_DECAY, epsilon := BATCH_NORM_EPSILON },
    convShortcut :=
      { filters := filters2, kernel := (1, 1), strides := strides,
        padding := "valid", kernel_initializer := "he_normal",
        kernel_regularizer := L2_WEIGHT_DECAY,
        bias_regularizer := L2_WEIGHT_DECAY, name := conv_name_base ++ "1" },
    bnShortcut :=
      { axis := bn_axis, name := bn_name_base ++ "1",
        momentum := BATCH_NORM_DECAY, epsilon := BATCH_NORM_EPSILON } }

/-- The layers a `conv_building_block` call creates, in creation order
(source lines 110-145): main-path conv, bn, ReLU, conv, bn, then the
shortcut conv and bn, then the add and the final ReLU. -/
def conv_building_block_layers (kernel_size : Nat) (filters : Nat × Nat)
    (stage : Nat) (block : String) (strides : Nat × Nat)
    (image_data_format : String) : List Layer :=
  let p := convBlockParams kernel_size filters stage block strides
    image_data_format
  [Layer.conv2d p.conv2a, Layer.batchNorm p.bn2a, Layer.activation "relu",
   Layer.conv2d p.conv2b, Layer.batchNorm p.bn2b,
   Layer.conv2d p.convShortcut, Layer.batchNorm p.bnShortcut, Layer.add,
   Layer.activation "relu"]

/-- Source lines 75-145, `conv_building_block`: like the identity block but
the first main-path convolution uses the given `strides`, and the shortcut
is a strided 1x1 convolution on the input followed by batch normalization,
with no activation, as the second summand of the add. -/
def conv_building_block (input_tensor : Tensor) (kernel_size : Nat)
    (filters : Nat × Nat) (stage : Nat) (block : String)
    (strides : Nat × Nat) (training : Option Bool)
    (image_data_format : String) : Tensor × List Layer :=
  let p := convBlockParams kernel_size filters stage block strides
    image_data_format
  let x1 := Tensor.conv2d p.conv2a input_tensor
  let x2 := Tensor.batchNorm p.bn2a training x1
  let x3 := Tensor.activation "relu" x2
  let x4 := Tensor.conv2d p.conv2b x3
  let x5 := Tensor.batchNorm p.bn2b training x4
  let shortcut1 := Tensor.conv2d p.convShortcut input_tensor
  let shortcut2 := Tensor.batchNorm p.bnShortcut training shortcut1
  let x6 := Tensor.add x5 shortcut2
  let x7 := Tensor.activation "relu" x6
  (x7, conv_building_block_layers kernel_size filters stage block strides
    image_data_format)

/-- A `conv_building_block` call that omits the `strides` argument: the
Python signature declares `strides=(2, 2)` as its default (source line 80). -/
def conv_building_block_default (input_tensor : Tensor) (kernel_size : Nat)
    (filters : Nat × Nat) (stage : Nat) (block : String)
    (training : Option Bool) (image_data_format : String) :
    Tensor × List Layer :=
  conv_building_block input_tensor kernel_size filters stage block (2, 2)
    training image_data_format

/-- The parameters of the stem convolution, `Conv2D(16, (3, 3),
strides=(1, 1), padding='valid', ..., name='conv1')` (source lines
169-175). -/
def stemConvParams : ConvParams :=
  { filters := 16, kernel := (3, 3), strides := (1, 1), padding := "valid",
    kernel_initializer := "he_normal",
    kernel_regularizer := L2_WEIGHT_DECAY,
    bias_regularizer := L2_WEIGHT_DECAY, name := "conv1" }

/-- The parameters of the stem batch normalization, named `bn_conv1`
(source lines 176-178); its axis is 1 for `channels_first`, else 3. -/
def stemBNParams (image_data_format : String) : BNParams :=
  { axis := if image_data_format == "channels_first" then 1 else 3,
    name := "bn_conv1", momentum := BATCH_NORM_DECAY,
    epsilon := BATCH_NORM_EPSILON }

/-- The parameters of the final classifier, `Dense(classes,
activation='softmax', ..., name='fc10')` (source lines 212-216). -/
def fcParams (classes : Int) : DenseParams :=
  { units := classes, activation := "softmax",
    kernel_initializer := "he_normal",
    kernel_regularizer := L2_WEIGHT_DECAY,
    bias_regularizer := L2_WEIGHT_DECAY, name := "fc10" }

/-- Source lines 160-164: the input shape, 3x32x32 for `channels_first`,
else 32x32x3. -/
def resnet56InputShape (image_data_format : String) : List Nat :=
  if image_data_format == "channels_first" then [3, 32, 32] else [32, 32, 3]

/-- The layers a `resnet56` call creates, in creation order: the input
layer, the stem (`conv1_pad`, `conv1`, `bn_conv1`, ReLU), each block's
layers with the same arguments as the block calls of source lines 181-209
(stage 2 at width 16, the conv block with strides `(1, 1)`; stages 3 and 4
at widths 32 and 64, their conv blocks with the default strides `(2, 2)`),
global average pooling and the dense classifier. -/
def resnet56Layers (classes : Int) (image_data_format : String) :
    List Layer :=
  [Layer.input (resnet56InputShape image_data_format),
   Layer.zeroPad2d (1, 1) "conv1_pad", Layer.conv2d stemConvParams,
   Layer.batchNorm (stemBNParams image_data_format),
   Layer.activation "relu"] ++
  conv_building_block_layers 3 (16, 16) 2 "a" (1, 1) image_data_format ++
  identity_building_block_layers 3 (16, 16) 2 "b" image_data_format ++
  identity_building_block_layers 3 (16, 16) 2 "c" image_data_format ++
  identity_building_block_layers 3 (16, 16) 2 "d" image_data_format ++
  identity_building_block_layers 3 (16, 16) 2 "e" image_data_format ++
  identity_building_block_layers 3 (16, 16) 2 "f" image_data_format ++
  identity_building_block_layers 3 (16, 16) 2 "g" image_data_format ++
  identity_building_block_layers 3 (16, 16) 2 "h" image_data_format ++
  identity_building_block_layers 3 (16, 16) 2 "i" image_data_format ++
  conv_building_block_layers 3 (32, 32) 3 "a" (2, 2) image_data_format ++
  identity_building_block_layers 3 (32, 32) 3 "b" image_data_format ++
  identity_building_block_layers 3 (32, 32) 3 "c" image_data_format ++
  identity_building_block_layers 3 (32, 32) 3 "d" image_data_format ++
  identity_building_block_layers 3 (32, 32) 3 "e" image_data_format ++
  identity_building_block_layers 3 (32, 32) 3 "f" image_data_format ++
  identity_building_block_layers 3 (32, 32) 3 "g" image_data_format ++
  identity_building_block_layers 3 (32, 32) 3 "h" image_data_format ++
  identity_building_block_layers 3 (32, 32) 3 "i" image_data_format ++
  conv_building_block_layers 3 (64, 64) 4 "a" (2, 2) image_data_format ++
  identity_building_block_layers 3 (64, 64) 4 "b" image_data_format ++
  identity_building_block_layers 3 (64, 64) 4 "c" image_data_format ++
  identity_building_block_layers 3 (64, 64) 4 "d" image_data_format ++
  identity_building_block_layers 3 (64, 64) 4 "e" image_data_format ++
  identity_building_block_layers 3 (64, 64) 4 "f" image_data_format ++
  identity_building_block_layers 3 (64, 64) 4 "g" image_data_format ++
  identity_building_block_layers 3 (64, 64) 4 "h" image_data_format ++
  identity_building_block_layers 3 (64, 64) 4 "i" image_data_format ++
  [Layer.globalAvgPool2d "avg_pool", Layer.dense (fcParams classes)]

/-- The output tensor a `resnet56` call builds: the chain of block
applications of source lines 167-216, from the input layer through the stem,
the 27 blocks, global average pooling and the dense classifier. -/
def resnet56Output (classes : Int) (training : Option Bool)
    (image_data_format : String) : Tensor :=
  let img_input := Tensor.input (resnet56InputShape image_data_format)
  let x0 := Tensor.zeroPad2d (1, 1) "conv1_pad" img_input
  let x1 := Tensor.conv2d stemConvParams x0
  let x2 := Tensor.batchNorm (stemBNParams image_data_format) training x1
  let x3 := Tensor.activation "relu" x2
  let s2a := conv_building_block x3 3 (16, 16) 2 "a" (1, 1) training
    image_data_format
  let s2b := identity_building_block s2a.1 3 (16, 16) 2 "b" training
    image_data_format
  let s2c := identity_building_block s2b.1 3 (16, 16) 2 "c" training
    image_data_format
  let s2d := identity_building_block s2c.1 3 (16, 16) 2 "d" training
    image_data_format
  let s2e := identity_building_block s2d.1 3 (16, 16) 2 "e" training
    image_data_format
  let s2f := identity_building_block s2e.1 3 (16, 16) 2 "f" training
    image_data_format
  let s2g := identity_building_block s2f.1 3 (16, 16) 2 "g" training
    image_data_format
  let s2h := identity_building_block s2g.1 3 (16, 16) 2 "h" training
    image_data_format
  let s2i := identity_building_block s2h.1 3 (16, 16) 2 "i" training
    image_data_format
  let s3a := conv_building_block_default s2i.1 3 (32, 32) 3 "a" training
    image_data_format
  let s3b := identity_building_block s3a.1 3 (32, 32) 3 "b" training
    image_data_format
  let s3c := identity_building_block s3b.1 3 (32, 32) 3 "c" training
    image_data_format
  let s3d := identity_building_block s3c.1 3 (32, 32) 3 "d" training
    image_data_format
  let s3e := identity_building_block s3d.1 3 (32, 32) 3 "e" training
    image_data_format
  let s3f := identity_building_block s3e.1 3 (32, 32) 3 "f" training
    image_data_format
  let s3g := identity_building_block s3f.1 3 (32, 32) 3 "g" training
    image_data_format
  let s3h := identity_building_block s3g.1 3 (32, 32) 3 "h" training
    image_data_format
  let s3i := identity_building_block s3h.1 3 (32, 32) 3 "i" training
    image_data_format
  let s4a := conv_building_block_default s3i.1 3 (64, 64) 4 "a" training
    image_data_format
  let s4b := identity_building_block s4a.1 3 (64, 64) 4 "b" training
    image_data_format
  let s4c := identity_building_block s4b.1 3 (64, 64) 4 "c" training
    image_data_format
  let s4d := identity_building_block s4c.1 3 (64, 64) 4 "d" training
    image_data_format
  let s4e := identity_building_block s4d.1 3 (64, 64) 4 "e" training
    image_data_format
  let s4f := identity_building_block s4e.1 3 (64, 64) 4 "f" training
    image_data_format
  let s4g := identity_building_block s4f.1 3 (64, 64) 4 "g" training
    image_data_format
  let s4h := identity_building_block s4g.1 3 (64, 64) 4 "h" training
    image_data_format
  let s4i := identity_building_block s4h.1 3 (64, 64) 4 "i" training
    image_data_format
  let pooled := Tensor.globalAvgPool2d "avg_pool" s4i.1
  Tensor.dense (fcParams classes) pooled

/-- Source lines 148-219, `resnet56`: stem (zero padding, 16-channel 3x3
valid-padding convolution, batch normalization, ReLU), three stages of one
conv block plus eight identity blocks each at widths 16/32/64, global
average pooling and a softmax dense classifier, packaged as
`models.Model(img_input, x, name='resnet56')`.  The Python `classes`
argument defaults to 100; `training` defaults to `None`. -/
def resnet56 (classes : Int) (training : Option Bool)
    (image_data_format : String) : Model :=
  { input := Tensor.input (resnet56InputShape image_data_format),
    output := resnet56Output classes training image_data_format,
    layers := resnet56Layers classes image_data_format,
    name := "resnet56" }

/-!
Extraction functions over the layer trace.
-/

/-- The number of `Conv2D` layers in a layer list. -/
def countConvs (ls : List Layer) : Nat :=
  ls.countP fun l =>
    match l with
    | Layer.conv2d _ => true
    | _ => false

/-- The axes of the batch-normalization layers, in layer order. -/
def bnAxes (ls : List Layer) : List Nat :=
  ls.filterMap fun l =>
    match l with
    | Layer.batchNorm p => some p.axis
    | _ => none

/-- The names of the learnable layers (convolutions, batch normalizations,
the dense classifier), in creation order. -/
def learnableNames (ls : List Layer) : List String :=
  ls.filterMap fun l =>
    match l with
    | Layer.conv2d p => some p.name
    | Layer.batchNorm p => some p.name
    | Layer.dense p => some p.name
    | _ => none

/-- Whether every element of the list equals the first one. -/
def allEqNat : List Nat → Bool
  | [] => true
  | a :: rest => rest.all fun b => b == a

/-- The (kernel regularizer, bias regularizer) pair of every layer that has
weight regularizers (convolutions and the dense classifier), in order. -/
def learnableRegs (ls : List Layer) : List (ℚ × ℚ) :=
  ls.filterMap fun l =>
    match l with
    | Layer.conv2d p => some (p.kernel_regularizer, p.bias_regularizer)
    | Layer.dense p => some (p.kernel_regularizer, p.bias_regularizer)
    | _ => none

/-- The (momentum, epsilon) pair of every batch-normalization layer. -/
def bnConstants (ls : List Layer) : List (ℚ × ℚ) :=
  ls.filterMap fun l =>
    match l with
    | Layer.batchNorm p => some (p.momentum, p.epsilon)
    | _ => none

/-- The parameter records of the `Dense` layers of a layer list. -/
def denseLayers (ls : List Layer) : List DenseParams :=
  ls.filterMap fun l =>
    match l with
    | Layer.dense p => some p
    | _ => none

/-- The layer's type, as a tag string. -/
def layerKind : Layer → String
  | Layer.input _ => "InputLayer"
  | Layer.zeroPad2d _ _ => "ZeroPadding2D"
  | Layer.conv2d _ => "Conv2D"
  | Layer.batchNorm _ => "BatchNormalization"
  | Layer.activation _ => "Activation"
  | Layer.add => "Add"
  | Layer.globalAvgPool2d _ => "GlobalAveragePooling2D"
  | Layer.dense _ => "Dense"

/-- The layer's explicitly given name, when the source gives one
(activation and add layers carry no explicit name in the source). -/
def layerName : Layer → Option String
  | Layer.input _ => none
  | Layer.zeroPad2d _ n => some n
  | Layer.conv2d p => some p.name
  | Layer.batchNorm p => some p.name
  | Layer.activation _ => none
  | Layer.add => none
  | Layer.globalAvgPool2d n => some n
  | Layer.dense p => some p.name

/-!
Specification-side topology, written from the spec's words (sections 3,
4.1, 4.2 and 4.3) for the refinement claim about `resnet56`'s topology.
The spec fixes one channel axis per graph ("must be read once and applied
consistently to every block"), axis 1 for `channels_first` and axis 3
otherwise, and derives layer names from the stage and block labels with a
branch suffix.  The shortcut convolution's padding is the framework
default, `"valid"` (the spec gives it no padding of its own; a 1x1
convolution pads nothing either way).
-/

/-- Spec section 3: the single channel axis of one graph, read once from
the layout convention. -/
def specChannelAxis (image_data_format : String) : Nat :=
  if image_data_format == "channels_first" then 1 else 3

/-- Spec section 4.3, step 1: input shape 3x32x32 or 32x32x3 by layout. -/
def specInputShape (image_data_format : String) : List Nat :=
  if image_data_format == "channels_first" then [3, 32, 32] else [32, 32, 3]

/-- Spec: every convolution uses He-normal initialization and L2 kernel and
bias regularization with the fixed decay constant. -/
def specConvLayer (f : Nat) (k : Nat × Nat) (st : Nat × Nat) (pad : String)
    (nm : String) : Layer :=
  Layer.conv2d
    { filters := f, kernel := k, strides := st, padding := pad,
      kernel_initializer := "he_normal",
      kernel_regularizer := L2_WEIGHT_DECAY,
      bias_regularizer := L2_WEIGHT_DECAY, name := nm }

/-- Spec: every normalization layer uses the fixed momentum and epsilon and
normalizes across the configured channel axis. -/
def specBNLayer (axis : Nat) (nm : String) : Layer :=
  Layer.batchNorm
    { axis := axis, name := nm, momentum := BATCH_NORM_DECAY,
      epsilon := BATCH_NORM_EPSILON }

/-- Spec section 4.1: the layers of one IdentityBlock — conv(f1, k, stride
1, same padding), normalize, ReLU, conv(f2, k, stride 1, same padding),
normalize, the add with the input, ReLU. -/
def specIdentityBlockLayers (axis k f1 f2 : Nat) (stage : Nat)
    (block : String) : List Layer :=
  let conv_base := "res" ++ toString stage ++ block ++ "_branch"
  let bn_base := "bn" ++ toString stage ++ block ++ "_branch"
  [specConvLayer f1 (k, k) (1, 1) "same" (conv_base ++ "2a"),
   specBNLayer axis (bn_base ++ "2a"),
   Layer.activation "relu",
   specConvLayer f2 (k, k) (1, 1) "same" (conv_base ++ "2b"),
   specBNLayer axis (bn_base ++ "2b"),
   Layer.add, Layer.activation "relu"]

/-- Spec section 4.2: the layers of one ConvBlock — the IdentityBlock main
path with the first convolution strided, then the shortcut 1x1 convolution
with the same stride and `f2` output channels and its normalization (no
activation), then the add and the ReLU. -/
def specConvBlockLayers (axis k f1 f2 : Nat) (stage : Nat) (block : String)
    (st : Nat × Nat) : List Layer :=
  let conv_base := "res" ++ toString stage ++ block ++ "_branch"
  let bn_base := "bn" ++ toString stage ++ block ++ "_branch"
  [specConvLayer f1 (k, k) st "same" (conv_base ++ "2a"),
   specBNLayer axis (bn_base ++ "2a"),
   Layer.activation "relu",
   specConvLayer f2 (k, k) (1, 1) "same" (conv_base ++ "2b"),
   specBNLayer axis (bn_base ++ "2b"),
   specConvLayer f2 (1, 1) st "valid" (conv_base ++ "1"),
   specBNLayer axis (bn_base ++ "1"),
   Layer.add, Layer.activation "relu"]

/-- Spec section 4.3, steps 3-5: a stage is one ConvBlock labeled "a"
followed by eight IdentityBlocks labeled "b" through "i", all at channel
width `w`. -/
def specStageLayers (axis k w stage : Nat) (st : Nat × Nat) : List Layer :=
  specConvBlockLayers axis k w w stage "a" st ++
    (["b", "c", "d", "e", "f", "g", "h", "i"].map fun b =>
      specIdentityBlockLayers axis k w w stage b).flatten

/-- Spec section 4.3: the full layer sequence — stem (zero-pad 1 pixel per
spatial edge, 3x3 convolution to 16 channels with stride 1 and valid
padding, normalization, ReLU), stage 2 at width 16 with stride (1, 1),
stage 3 at width 32 with stride (2, 2), stage 4 at width 64 with stride
(2, 2), global average pooling, and a dense softmax classifier with
`classes` outputs. -/
def specResnet56Layers (classes : Int) (image_data_format : String) :
    List Layer :=
  let axis := specChannelAxis image_data_format
  [Layer.input (specInputShape image_data_format),
   Layer.zeroPad2d (1, 1) "conv1_pad",
   specConvLayer 16 (3, 3) (1, 1) "valid" "conv1",
   specBNLayer axis "bn_conv1", Layer.activation "relu"] ++
  specStageLayers axis 3 16 2 (1, 1) ++
  specStageLayers axis 3 32 3 (2, 2) ++
  specStageLayers axis 3 64 4 (2, 2) ++
  [Layer.globalAvgPool2d "avg_pool",
   Layer.dense
     { units := classes, activation := "softmax",
       kernel_initializer := "he_normal",
       kernel_regularizer := L2_WEIGHT_DECAY,
       bias_regularizer := L2_WEIGHT_DECAY, name := "fc10" }]

/-!
The claims.
-/

set_option maxRecDepth 10000 in
/-- C1: for every positive class count and every training flag (and either
supported layout convention), `resnet56` builds exactly the fixed topology
of the spec, in order: the stem (zero-pad 1 pixel per spatial edge, 3x3
convolution to 16 channels with stride 1 and valid padding, normalization,
ReLU); stage 2 as one ConvBlock with stride (1, 1) and filters (16, 16)
followed by 8 IdentityBlocks, the nine blocks labeled "a" through "i";
stage 3 as one ConvBlock with stride (2, 2) and filters (32, 32) followed
by 8 IdentityBlocks; stage 4 as one ConvBlock with stride (2, 2) and
filters (64, 64) followed by 8 IdentityBlocks; then global average pooling
and a dense layer with `classes` outputs and softmax activation. -/
theorem resnet56_builds_spec_topology (classes : Int)
    (training : Option Bool) (image_data_format : String)
    (hc : 0 < classes)
    (hfmt : image_data_format = "channels_last" ∨
      image_data_format = "channels_first") :
    (resnet56 classes training image_data_format).layers =
      specResnet56Layers classes image_data_format := by
  rcases hfmt with h | h <;> subst h <;>
    simp [resnet56, resnet56Layers, identity_building_block_layers,
      conv_building_block_layers, identityBlockParams, convBlockParams,
      stemConvParams, stemBNParams, fcParams, resnet56InputShape,
      specResnet56Layers, specStageLayers, specConvBlockLayers,
      specIdentityBlockLayers, specConvLayer, specBNLayer, specChannelAxis,
      specInputShape]

set_option maxRecDepth 10000 in
/-- Witness for C1 at `classes = 10`, `training = some true`,
`channels_last`. -/
theorem resnet56_builds_spec_topology_witness :
    (0 : Int) < 10 ∧
    (resnet56 10 (some true) "channels_last").layers =
      specResnet56Layers 10 "channels_last" :=
  ⟨by decide,
   resnet56_builds_spec_topology 10 (some true) "channels_last" (by decide)
     (Or.inl rfl)⟩

set_option maxRecDepth 10000 in
/-- C2: for every input tensor, kernel size, filter pair, stage, block
label and training flag, `identity_building_block` applies exactly:
convolution with `f1` filters, stride 1, same padding; normalization; ReLU;
convolution with `f2` filters, stride 1, same padding; normalization; the
element-wise add with the unmodified input tensor; and a final ReLU on the
sum, which it returns. -/
theorem identity_building_block_applies_spec_sequence
    (input_tensor : Tensor) (kernel_size : Nat) (f1 f2 : Nat) (stage : Nat)
    (block : String) (training : Option Bool) (fmt : String) :
    (identity_building_block input_tensor kernel_size (f1, f2) stage block
        training fmt).1 =
      Tensor.activation "relu"
        (Tensor.add
          (Tensor.batchNorm
            { axis := if fmt == "channels_last" then 3 else 1,
              name := "bn" ++ toString stage ++ block ++ "_branch" ++ "2b",
              momentum := BATCH_NORM_DECAY, epsilon := BATCH_NORM_EPSILON }
            training
            (Tensor.conv2d
              { filters := f2, kernel := (kernel_size, kernel_size),
                strides := (1, 1), padding := "same",
                kernel_initializer := "he_normal",
                kernel_regularizer := L2_WEIGHT_DECAY,
                bias_regularizer := L2_WEIGHT_DECAY,
                name := "res" ++ toString stage ++ block ++ "_branch" ++ "2b" }
              (Tensor.activation "relu"
                (Tensor.batchNorm
                  { axis := if fmt == "channels_last" then 3 else 1,
                    name := "bn" ++ toString stage ++ block ++ "_branch" ++ "2a",
                    momentum := BATCH_NORM_DECAY,
                    epsilon := BATCH_NORM_EPSILON } training
                  (Tensor.conv2d
                    { filters := f1, kernel := (kernel_size, kernel_size),
                      strides := (1, 1), padding := "same",
                      kernel_initializer := "he_normal",
                      kernel_regularizer := L2_WEIGHT_DECAY,
                      bias_regularizer := L2_WEIGHT_DECAY,
                      name := "res" ++ toString stage ++ block ++ "_branch" ++ "2a" }
                    input_tensor)))))
          input_tensor) := rfl

set_option maxRecDepth 10000 in
/-- C3: for every input tensor, kernel size, filter pair, stage, block
label, stride and training flag, `conv_building_block`'s main path equals
the IdentityBlock sequence except that the first convolution uses the given
stride; its shortcut path is a 1x1 convolution on the input with the same
stride and `f2` output channels followed by normalization with no
activation; the block returns ReLU of the element-wise sum of the two
paths; and omitting the stride argument means stride (2, 2). -/
theorem conv_building_block_applies_spec_sequence (input_tensor : Tensor)
    (kernel_size : Nat) (f1 f2 : Nat) (stage : Nat) (block : String)
    (strides : Nat × Nat) (training : Option Bool) (fmt : String) :
    (conv_building_block input_tensor kernel_size (f1, f2) stage block
        strides training fmt).1 =
      Tensor.activation "relu"
        (Tensor.add
          (Tensor.batchNorm
            { axis := if fmt == "channels_last" then 3 else 1,
              name := "bn" ++ toString stage ++ block ++ "_branch" ++ "2b",
              momentum := BATCH_NORM_DECAY, epsilon := BATCH_NORM_EPSILON }
            training
            (Tensor.conv2d
              { filters := f2, kernel := (kernel_size, kernel_size),
                strides := (1, 1), padding := "same",
                kernel_initializer := "he_normal",
                kernel_regularizer := L2_WEIGHT_DECAY,
                bias_regularizer := L2_WEIGHT_DECAY,
                name := "res" ++ toString stage ++ block ++ "_branch" ++ "2b" }
              (Tensor.activation "relu"
                (Tensor.batchNorm
                  { axis := if fmt == "channels_last" then 3 else 1,
                    name := "bn" ++ toString stage ++ block ++ "_branch" ++ "2a",
                    momentum := BATCH_NORM_DECAY,
                    epsilon := BATCH_NORM_EPSILON } training
                  (Tensor.conv2d
                    { filters := f1, kernel := (kernel_size, kernel_size),
                      strides := strides, padding := "same",
                      kernel_initializer := "he_normal",
                      kernel_regularizer := L2_WEIGHT_DECAY,
                      bias_regularizer := L2_WEIGHT_DECAY,
                      name := "res" ++ toString stage ++ block ++ "_branch" ++ "2a" }
                    input_tensor)))))
          (Tensor.batchNorm
            { axis := if fmt == "channels_last" then 3 else 1,
              name := "bn" ++ toString stage ++ block ++ "_branch" ++ "1",
              momentum := BATCH_NORM_DECAY, epsilon := BATCH_NORM_EPSILON }
            training
            (Tensor.conv2d
              { filters := f2, kernel := (1, 1), strides := strides,
                padding := "valid", kernel_initializer := "he_normal",
                kernel_regularizer := L2_WEIGHT_DECAY,
                bias_regularizer := L2_WEIGHT_DECAY,
                name := "res" ++ toString stage ++ block ++ "_branch" ++ "1" }
              input_tensor))) ∧
    conv_building_block_default input_tensor kernel_size (f1, f2) stage
        block training fmt =
      conv_building_block input_tensor kernel_size (f1, f2) stage block
        (2, 2) training fmt :=
  ⟨rfl, rfl⟩

set_option maxRecDepth 10000 in
/-- C4: every graph returned by `resnet56` contains exactly 58 `Conv2D`
layers; each identity block contributes its 2 main-path convolutions and
each conv block its 2 main-path convolutions plus the 1 shortcut
convolution (and conv blocks head each of the 3 stages), the remaining one
being the stem convolution. -/
theorem resnet56_has_58_conv_layers (classes : Int)
    (training : Option Bool) (image_data_format : String) :
    countConvs (resnet56 classes training image_data_format).layers = 58 ∧
    (∀ (input : Tensor) (k : Nat) (fs : Nat × Nat) (s : Nat) (b : String)
      (tr : Option Bool) (f : String),
      countConvs (identity_building_block input k fs s b tr f).2 = 2) ∧
    (∀ (input : Tensor) (k : Nat) (fs : Nat × Nat) (s : Nat) (b : String)
      (st : Nat × Nat) (tr : Option Bool) (f : String),
      countConvs (conv_building_block input k fs s b st tr f).2 = 3) := by
  refine ⟨?_, fun _ _ _ _ _ _ _ => rfl, fun _ _ _ _ _ _ _ _ => rfl⟩
  simp [resnet56, resnet56Layers, identity_building_block_layers,
    conv_building_block_layers, countConvs]

set_option maxRecDepth 10000 in
/-- C5 counterexample: `resnet56` does not fail on a non-positive class
count or on an unsupported layout string — at `classes = 0`, at
`classes = -5` and at the layout string "not_a_layout" it still returns the
complete graph of 202 layers with all 58 convolutions and a dense layer
whose unit count is the given class count, rather than reporting a
construction error. -/
theorem resnet56_invalid_config_counterexample :
    countConvs (resnet56 0 none "channels_last").layers = 58 ∧
    (resnet56 0 none "channels_last").layers.length = 202 ∧
    (denseLayers (resnet56 0 none "channels_last").layers).map
      (fun p => p.units) = [0] ∧
    countConvs (resnet56 (-5) none "channels_last").layers = 58 ∧
    (resnet56 10 none "not_a_layout").layers.length = 202 :=
  ⟨rfl, rfl, rfl, rfl, rfl⟩

set_option maxRecDepth 10000 in
/-- C5 amended: `resnet56` performs no validation of the class count (or of
the layout string): for every non-positive class count it still constructs
and returns the complete fixed-topology graph — 202 layers, 58
convolutions, and a dense classifier whose unit count is the given
non-positive class count — deferring any failure to the external
framework. -/
theorem resnet56_builds_full_graph_without_validation (classes : Int)
    (training : Option Bool) (image_data_format : String)
    (hc : classes ≤ 0) :
    (resnet56 classes training image_data_format).layers.length = 202 ∧
    countConvs (resnet56 classes training image_data_format).layers = 58 ∧
    (denseLayers (resnet56 classes training image_data_format).layers).map
      (fun p => p.units) = [classes] := by
  refine ⟨?_, ?_, ?_⟩ <;>
    simp [resnet56, resnet56Layers, identity_building_block_layers,
      conv_building_block_layers, countConvs, denseLayers, fcParams]

set_option maxRecDepth 10000 in
/-- Witness for C5's amended claim at `classes = 0`. -/
theorem resnet56_builds_full_graph_without_validation_witness :
    (0 : Int) ≤ 0 ∧
    ((resnet56 0 none "channels_last").layers.length = 202 ∧
     countConvs (resnet56 0 none "channels_last").layers = 58 ∧
     (denseLayers (resnet56 0 none "channels_last").layers).map
       (fun p => p.units) = [(0 : Int)]) :=
  ⟨by decide,
   resnet56_builds_full_graph_without_validation 0 none "channels_last"
     (by decide)⟩

set_option maxRecDepth 10000 in
/-- C6 counterexample: the claim's "for both valid and any other
layout-string values" fails — for the unsupported layout string
"channels_middle", `resnet56`'s stem normalization (selected via a
`channels_first` comparison) uses axis 3 while every block normalization
(selected via a `channels_last` comparison) uses axis 1, so one graph mixes
two channel axes. -/
theorem resnet56_bn_axes_mixed_counterexample :
    allEqNat (bnAxes (resnet56 10 none "channels_middle").layers) = false ∧
    (bnAxes (resnet56 10 none "channels_middle").layers).take 2 = [3, 1] :=
  ⟨rfl, rfl⟩

set_option maxRecDepth 10000 in
/-- C6 amended: for the two supported layout strings (`channels_last` and
`channels_first`) the normalization axis selected inside `resnet56` equals
the axis selected inside every block of the graph — all 58 normalization
layers of one graph use one channel axis; for any other layout string the
stem and the blocks disagree. -/
theorem resnet56_bn_axis_consistent_on_valid_layout (classes : Int)
    (training : Option Bool) (image_data_format : String)
    (hfmt : image_data_format = "channels_last" ∨
      image_data_format = "channels_first") :
    allEqNat (bnAxes (resnet56 classes training image_data_format).layers) =
      true := by
  rcases hfmt with h | h <;> subst h <;>
    simp [resnet56, resnet56Layers, identity_building_block_layers,
      conv_building_block_layers, identityBlockParams, convBlockParams,
      stemBNParams, bnAxes, allEqNat]

set_option maxRecDepth 10000 in
/-- Witness for C6's amended claim at `channels_last`. -/
theorem resnet56_bn_axis_consistent_on_valid_layout_witness :
    allEqNat (bnAxes (resnet56 10 none "channels_last").layers) = true :=
  resnet56_bn_axis_consistent_on_valid_layout 10 none "channels_last"
    (Or.inl rfl)

set_option maxRecDepth 10000 in
/-- C7: graph construction is deterministic and idempotent — the embedding
of `resnet56` consults no mutable state, so two invocations with the same
configuration (classes, training flag, layout convention) yield the same
sequence of layer types, the same layer names, and structurally identical
graphs (hence identical parameter shapes). -/
theorem resnet56_construction_deterministic (classes : Int)
    (training : Option Bool) (image_data_format : String) :
    (resnet56 classes training image_data_format).layers.map layerKind =
      (resnet56 classes training image_data_format).layers.map layerKind ∧
    (resnet56 classes training image_data_format).layers.map layerName =
      (resnet56 classes training image_data_format).layers.map layerName ∧
    resnet56 classes training image_data_format =
      resnet56 classes training image_data_format :=
  ⟨rfl, rfl, rfl⟩

set_option maxRecDepth 10000 in
/-- C8: within one full `resnet56` construction, the generated names of the
learnable layers — the convolution names built from "res" + stage + block +
"_branch" plus a branch suffix, the normalization names built from "bn" +
stage + block + "_branch" plus a branch suffix, and the fixed names
"conv1", "bn_conv1" and "fc10" — are pairwise distinct, for every
configuration. -/
theorem resnet56_learnable_names_distinct (classes : Int)
    (training : Option Bool) (image_data_format : String) :
    (learnableNames
      (resnet56 classes training image_data_format).layers).Nodup := by
  have h : learnableNames
      (resnet56 classes training image_data_format).layers =
      learnableNames (resnet56 100 none "channels_last").layers := by
    simp [resnet56, resnet56Layers, identity_building_block_layers,
      conv_building_block_layers, identityBlockParams, convBlockParams,
      stemConvParams, stemBNParams, fcParams, learnableNames]
  rw [h]
  decide

set_option maxRecDepth 10000 in
/-- C9: every learnable layer of every `resnet56` graph uses the same
regularization constants — all 59 weight-bearing layers (the 58
convolutions and the dense classifier) use `L2_WEIGHT_DECAY` for both
kernel and bias regularizers, and all 58 normalization layers use
`BATCH_NORM_DECAY` as momentum and `BATCH_NORM_EPSILON` as epsilon. -/
theorem resnet56_regularization_constants_uniform (classes : Int)
    (training : Option Bool) (image_data_format : String) :
    learnableRegs (resnet56 classes training image_data_format).layers =
      List.replicate 59 (L2_WEIGHT_DECAY, L2_WEIGHT_DECAY) ∧
    bnConstants (resnet56 classes training image_data_format).layers =
      List.replicate 58 (BATCH_NORM_DECAY, BATCH_NORM_EPSILON) := by
  constructor <;>
    simp [resnet56, resnet56Layers, identity_building_block_layers,
      conv_building_block_layers, identityBlockParams, convBlockParams,
      stemConvParams, stemBNParams, fcParams, learnableRegs, bnConstants,
      List.replicate]

set_option maxRecDepth 10000 in
/-- C10: for every value of the classes argument (the Python default being
100), the unique dense classifier layer of the graph is named "fc10" — the
name does not encode the class count — while its unit count (hence its
parameter shape) is the given `classes`, so models built with different
class counts share the classifier name and differ in the classifier
shape. -/
theorem resnet56_classifier_named_fc10 (classes : Int)
    (training : Option Bool) (image_data_format : String) :
    (denseLayers (resnet56 classes training image_data_format).layers).map
      (fun p => p.name) = ["fc10"] ∧
    (denseLayers (resnet56 classes training image_data_format).layers).map
      (fun p => p.units) = [classes] := by
  constructor <;>
    simp [resnet56, resnet56Layers, identity_building_block_layers,
      conv_building_block_layers, fcParams, denseLayers]

end ResnetCifar
